import Mathlib

/-!
Shallow embedding of `src/vt.rs` from the loginw repository: virtual-terminal
(VT) session management.  Every kernel interaction of the source (ioctls,
termios operations, close) is modelled as an event of type `KCall` recorded in
a trace, together with a model `KernelState` of the kernel-side console state
the calls act on.  Fallible calls are driven by a fault oracle
`flt : Nat → Bool` giving, for the i-th issued call of a sequence, whether that
call fails; a failing call that the source unwraps with `.expect(...)` aborts
the run (`RunResult.aborted`), mirroring the panic.  The discovery functions
`open_tty` / `find_free_tty` are modelled over an environment `FsEnv` of the
three fallible primitives they use (`openat`, `vt_openqry`, `close`).
-/

/-- `const VT_AUTO: libc::c_char = 0` from src/vt.rs. -/
def VT_AUTO : Int := 0

/-- `const VT_PROCESS: libc::c_char = 1` from src/vt.rs. -/
def VT_PROCESS : Int := 1

/-- `const VT_TRUE: libc::c_int = 1` from src/vt.rs. -/
def VT_TRUE : Int := 1

/-- `const VT_ACKACQ: libc::c_int = 2` from src/vt.rs. -/
def VT_ACKACQ : Int := 2

/-- `const K_RAW: libc::c_int = 0` from src/vt.rs. -/
def K_RAW : Int := 0

/-- `const KD_TEXT: libc::c_int = 0` from src/vt.rs. -/
def KD_TEXT : Int := 0

/-- `const KD_GRAPHICS: libc::c_int = 1` from src/vt.rs. -/
def KD_GRAPHICS : Int := 1

/-- `Signal::SIGUSR1 as libc::c_short` (FreeBSD signal number 30; the device
naming `ttyv<N>` used by this repository is the FreeBSD convention). -/
def SIGUSR1 : Int := 30

/-- `Signal::SIGIO as libc::c_short` (FreeBSD signal number 23). -/
def SIGIO : Int := 23

/-- Abstraction of a termios configuration: the source only ever reads the
current one (`tcgetattr`) and rewrites it through `cfmakeraw` or
`cfmakesane` before `tcsetattr`, so only those two derived shapes matter. -/
inductive TermiosMode
  | raw
  | sane
  | other : Nat → TermiosMode
deriving DecidableEq

/-- `termios::cfmakeraw`: overwrite a termios configuration with the raw one. -/
def cfmakeraw (_ : TermiosMode) : TermiosMode := TermiosMode.raw

/-- `termios::cfmakesane`: overwrite a termios configuration with the sane one. -/
def cfmakesane (_ : TermiosMode) : TermiosMode := TermiosMode.sane

/-- `termios::SetArg`: when a `tcsetattr` takes effect.  The source only uses
`TCSAFLUSH` (commit after output drains, discarding buffered input). -/
inductive SetArg
  | TCSANOW
  | TCSADRAIN
  | TCSAFLUSH
deriving DecidableEq

/-- `struct VtMode` from src/vt.rs: the switch-mode descriptor passed to
`vt_setmode` (fields `mode`, `waitv`, `relsig`, `acqsig`, `frsig`). -/
structure VtMode where
  mode : Int
  waitv : Int
  relsig : Int
  acqsig : Int
  frsig : Int
deriving DecidableEq

/-- The descriptor built in `Vt::new`:
`VtMode { mode: VT_PROCESS, waitv: 0, relsig: SIGUSR1, acqsig: SIGUSR1, frsig: SIGIO }`. -/
def acquireVtMode : VtMode := ⟨VT_PROCESS, 0, SIGUSR1, SIGUSR1, SIGIO⟩

/-- The descriptor built in `Drop::drop`:
`VtMode { mode: VT_AUTO, waitv: 0, relsig: 0, acqsig: 0, frsig: 0 }`. -/
def teardownVtMode : VtMode := ⟨VT_AUTO, 0, 0, 0, 0⟩

/-- One kernel interaction issued against the open VT device handle. -/
inductive KCall
  | vt_getindex
  | kdgkbmode
  | kdskbmode : Int → KCall
  | tcgetattr
  | tcsetattr : SetArg → TermiosMode → KCall
  | kdsetmode : Int → KCall
  | vt_setmode : VtMode → KCall
  | vt_activate : Int → KCall
  | vt_waitactive : Int → KCall
  | vt_reldisp : Int → KCall
  | close
deriving DecidableEq

/-- Model of the kernel-side console state behind the device handle. -/
structure KernelState where
  kbMode : Int
  consMode : Int
  tios : TermiosMode
  vtmode : VtMode
  vtIndex : Int
  activeVt : Int
  fdOpen : Bool
deriving DecidableEq

/-- Effect of a successful kernel call on the modelled kernel state. -/
def applyCall (s : KernelState) : KCall → KernelState
  | KCall.vt_getindex => s
  | KCall.kdgkbmode => s
  | KCall.kdskbmode m => ⟨m, s.consMode, s.tios, s.vtmode, s.vtIndex, s.activeVt, s.fdOpen⟩
  | KCall.tcgetattr => s
  | KCall.tcsetattr _ t => ⟨s.kbMode, s.consMode, t, s.vtmode, s.vtIndex, s.activeVt, s.fdOpen⟩
  | KCall.kdsetmode m => ⟨s.kbMode, m, s.tios, s.vtmode, s.vtIndex, s.activeVt, s.fdOpen⟩
  | KCall.vt_setmode d => ⟨s.kbMode, s.consMode, s.tios, d, s.vtIndex, s.activeVt, s.fdOpen⟩
  | KCall.vt_activate n => ⟨s.kbMode, s.consMode, s.tios, s.vtmode, s.vtIndex, n, s.fdOpen⟩
  | KCall.vt_waitactive _ => s
  | KCall.vt_reldisp _ => s
  | KCall.close => ⟨s.kbMode, s.consMode, s.tios, s.vtmode, s.vtIndex, s.activeVt, false⟩

/-- `pub struct Vt` from src/vt.rs. -/
structure Vt where
  tty_fd : Int
  vt_num : Int
  original_kb_mode : Int
deriving DecidableEq

/-- Outcome of running a sequence of fallible kernel calls: either the result
with the final kernel state and the trace of issued calls, or an abort
(the `.expect(msg)` panic of the source) with the state and trace so far. -/
inductive RunResult (α : Type)
  | ok : α → KernelState → List KCall → RunResult α
  | aborted : String → KernelState → List KCall → RunResult α
deriving DecidableEq

/-- The trace of kernel calls issued during a run. -/
def RunResult.trace {α : Type} : RunResult α → List KCall
  | RunResult.ok _ _ tr => tr
  | RunResult.aborted _ _ tr => tr

/-- The modelled kernel state when the run ends (normally or by abort). -/
def RunResult.state {α : Type} : RunResult α → KernelState
  | RunResult.ok _ s _ => s
  | RunResult.aborted _ s _ => s

/-- Whether the run completed without aborting. -/
def RunResult.isOk {α : Type} : RunResult α → Bool
  | RunResult.ok _ _ _ => true
  | RunResult.aborted _ _ _ => false

/-- The fault oracle of a run in which every kernel call succeeds. -/
def noFault : Nat → Bool := fun _ => false

/-- A fault oracle making exactly the 6th issued call fail. -/
def fault6 : Nat → Bool := fun i => i == 6

/-- `Vt::new(tty_fd)` from src/vt.rs (the Acquire sequence), with a fault
oracle deciding which of the nine issued kernel calls fail.  A failing call
does not change the kernel state; the source unwraps each call with
`.expect(...)`, so the first failure aborts the run. -/
def vtNew (flt : Nat → Bool) (tty_fd : Int) (s : KernelState) : RunResult Vt :=
  -- vt_getindex(tty_fd, &mut vt_num).expect("vt_getindex")
  let tr := [KCall.vt_getindex]
  if flt 1 then RunResult.aborted "vt_getindex" s tr else
  let vt_num := s.vtIndex
  -- kdgkbmode(tty_fd, &mut original_kb_mode).expect("kdgkbmode")
  let tr := tr ++ [KCall.kdgkbmode]
  if flt 2 then RunResult.aborted "kdgkbmode" s tr else
  let original_kb_mode := s.kbMode
  -- kdskbmode(tty_fd, K_RAW).expect("kdskbmode")
  let tr := tr ++ [KCall.kdskbmode K_RAW]
  if flt 3 then RunResult.aborted "kdskbmode" s tr else
  let s := applyCall s (KCall.kdskbmode K_RAW)
  -- let mut tios = termios::tcgetattr(tty_fd).expect("tcgetattr")
  let tr := tr ++ [KCall.tcgetattr]
  if flt 4 then RunResult.aborted "tcgetattr" s tr else
  let tios := s.tios
  -- termios::cfmakeraw(&mut tios);
  -- termios::tcsetattr(tty_fd, TCSAFLUSH, &tios).expect("tcsetattr")
  let tr := tr ++ [KCall.tcsetattr SetArg.TCSAFLUSH (cfmakeraw tios)]
  if flt 5 then RunResult.aborted "tcsetattr" s tr else
  let s := applyCall s (KCall.tcsetattr SetArg.TCSAFLUSH (cfmakeraw tios))
  -- kdsetmode(tty_fd, KD_GRAPHICS).expect("kdsetmode")
  let tr := tr ++ [KCall.kdsetmode KD_GRAPHICS]
  if flt 6 then RunResult.aborted "kdsetmode" s tr else
  let s := applyCall s (KCall.kdsetmode KD_GRAPHICS)
  -- vt_setmode(tty_fd, &[mode]).expect("vt_setmode") with the PROCESS descriptor
  let tr := tr ++ [KCall.vt_setmode acquireVtMode]
  if flt 7 then RunResult.aborted "vt_setmode" s tr else
  let s := applyCall s (KCall.vt_setmode acquireVtMode)
  -- vt_activate(tty_fd, vt_num).expect("vt_activate")
  let tr := tr ++ [KCall.vt_activate vt_num]
  if flt 8 then RunResult.aborted "vt_activate" s tr else
  let s := applyCall s (KCall.vt_activate vt_num)
  -- vt_waitactive(tty_fd, vt_num).expect("vt_waitactive")
  let tr := tr ++ [KCall.vt_waitactive vt_num]
  if flt 9 then RunResult.aborted "vt_waitactive" s tr else
  RunResult.ok ⟨tty_fd, vt_num, original_kb_mode⟩ s tr

/-- `Drop::drop` for `Vt` from src/vt.rs (the Teardown sequence), with a fault
oracle over its six issued kernel calls.  The first five are unwrapped with
`.expect(...)` and abort on failure; the final `unistd::close` has its result
discarded (`let _ = ...`), so its failure is ignored. -/
def vtDrop (flt : Nat → Bool) (v : Vt) (s : KernelState) : RunResult Unit :=
  -- kdskbmode(self.tty_fd, self.original_kb_mode).expect("kdskbmode")
  let tr := [KCall.kdskbmode v.original_kb_mode]
  if flt 1 then RunResult.aborted "kdskbmode" s tr else
  let s := applyCall s (KCall.kdskbmode v.original_kb_mode)
  -- kdsetmode(self.tty_fd, KD_TEXT).expect("kdsetmode")
  let tr := tr ++ [KCall.kdsetmode KD_TEXT]
  if flt 2 then RunResult.aborted "kdsetmode" s tr else
  let s := applyCall s (KCall.kdsetmode KD_TEXT)
  -- let mut tios = termios::tcgetattr(self.tty_fd).expect("tcgetattr")
  let tr := tr ++ [KCall.tcgetattr]
  if flt 3 then RunResult.aborted "tcgetattr" s tr else
  let tios := s.tios
  -- termios::cfmakesane(&mut tios);
  -- termios::tcsetattr(self.tty_fd, TCSAFLUSH, &tios).expect("tcsetattr")
  let tr := tr ++ [KCall.tcsetattr SetArg.TCSAFLUSH (cfmakesane tios)]
  if flt 4 then RunResult.aborted "tcsetattr" s tr else
  let s := applyCall s (KCall.tcsetattr SetArg.TCSAFLUSH (cfmakesane tios))
  -- vt_setmode(self.tty_fd, &[mode]).expect("vt_setmode") with the AUTO descriptor
  let tr := tr ++ [KCall.vt_setmode teardownVtMode]
  if flt 5 then RunResult.aborted "vt_setmode" s tr else
  let s := applyCall s (KCall.vt_setmode teardownVtMode)
  -- let _ = unistd::close(self.tty_fd);  (result ignored)
  let tr := tr ++ [KCall.close]
  if flt 6 then RunResult.ok () s tr else
  RunResult.ok () (applyCall s KCall.close) tr

/-- A whole session: `Vt::new` followed (when it returns) by the guaranteed
`Drop::drop` of the resulting `Vt`.  When `Vt::new` panics, no `Vt` value was
ever constructed, so Rust runs no `drop` for it: the abort propagates as is. -/
def sessionRun (flt fltD : Nat → Bool) (tty_fd : Int) (s : KernelState) : RunResult Unit :=
  match vtNew flt tty_fd s with
  | RunResult.aborted m s2 tr => RunResult.aborted m s2 tr
  | RunResult.ok v s2 tr =>
    match vtDrop fltD v s2 with
    | RunResult.aborted m s3 tr2 => RunResult.aborted m s3 (tr ++ tr2)
    | RunResult.ok _ s3 tr2 => RunResult.ok () s3 (tr ++ tr2)

/-- `Vt::ack_release` from src/vt.rs: one `vt_reldisp(self.tty_fd, VT_TRUE)`
call.  The method takes `&self`, so the `Vt` value is returned unchanged. -/
def ack_release (v : Vt) (s : KernelState) : Vt × KernelState × List KCall :=
  (v, applyCall s (KCall.vt_reldisp VT_TRUE), [KCall.vt_reldisp VT_TRUE])

/-- `Vt::ack_acquire` from src/vt.rs: one `vt_reldisp(self.tty_fd, VT_ACKACQ)`
call.  The method takes `&self`, so the `Vt` value is returned unchanged. -/
def ack_acquire (v : Vt) (s : KernelState) : Vt × KernelState × List KCall :=
  (v, applyCall s (KCall.vt_reldisp VT_ACKACQ), [KCall.vt_reldisp VT_ACKACQ])

/-- Number of `close` events in a trace. -/
def numCloses : List KCall → Nat
  | [] => 0
  | KCall.close :: r => numCloses r + 1
  | _ :: r => numCloses r

/-- The piece of kernel state a call writes, if any; used to compare the
order of the state-changing steps of Acquire and Teardown. -/
inductive StateTag
  | kb
  | cons
  | tios
  | vtm
  | fdclose
deriving DecidableEq

/-- The tag of the state a call writes (reads and acknowledgements are none). -/
def writeTag : KCall → Option StateTag
  | KCall.kdskbmode _ => some StateTag.kb
  | KCall.kdsetmode _ => some StateTag.cons
  | KCall.tcsetattr _ _ => some StateTag.tios
  | KCall.vt_setmode _ => some StateTag.vtm
  | KCall.close => some StateTag.fdclose
  | _ => none

/-- The `vt_setmode` descriptor arguments occurring in a trace, in order. -/
def setModeArgs (tr : List KCall) : List VtMode :=
  tr.filterMap fun c =>
    match c with
    | KCall.vt_setmode d => some d
    | _ => none

/-- A concrete pre-acquire kernel state whose console mode is graphics
(`KD_GRAPHICS`) and whose keyboard mode is 2 (a translated mode). -/
def cexState : KernelState := ⟨2, KD_GRAPHICS, TermiosMode.other 7, ⟨0, 0, 0, 0, 0⟩, 1, 0, true⟩

/-- A concrete pre-acquire kernel state whose console mode is text. -/
def textState : KernelState := ⟨2, KD_TEXT, TermiosMode.other 7, ⟨0, 0, 0, 0, 0⟩, 1, 0, true⟩

/-- Errors returned by the fallible primitives of the discovery functions
(a model of `nix::Error` restricted to its errno payload). -/
inductive Errno
  | ENOENT
  | EACCES
  | EINVAL
  | EBADF
  | other : Nat → Errno
deriving DecidableEq

/-- One file-system-level interaction issued by the discovery functions. -/
inductive FsCall
  | openat : Int → String → Nat → Nat → FsCall
  | vt_openqry : Int → FsCall
  | closefd : Int → FsCall
deriving DecidableEq

/-- Environment of the three fallible primitives the discovery functions use:
`fcntl::openat`, the `vt_openqry` ioctl, and `unistd::close`. -/
structure FsEnv where
  openat : Int → String → Nat → Nat → Except Errno Int
  openqry : Int → Except Errno Int
  close : Int → Except Errno Unit

/-- `O_RDWR` (value 2). -/
def O_RDWR : Nat := 2

/-- `O_NOCTTY` (FreeBSD value 0x8000): do not adopt the opened device as the
controlling terminal. -/
def O_NOCTTY : Nat := 32768

/-- `O_CLOEXEC` (FreeBSD value 0x100000): close the descriptor on exec. -/
def O_CLOEXEC : Nat := 1048576

/-- The flag word `OFlag::O_RDWR | OFlag::O_NOCTTY | OFlag::O_CLOEXEC` used by
both `open_tty` and `find_free_tty` in src/vt.rs. -/
def openTtyFlags : Nat := O_RDWR ||| O_NOCTTY ||| O_CLOEXEC

/-- `open_tty(dev_dir, tty_num)` from src/vt.rs: a single
`fcntl::openat(dev_dir, format!("ttyv\x7b\x7d", tty_num), O_RDWR|O_NOCTTY|O_CLOEXEC, Mode::empty())`,
whose result (handle or error) is returned as is; paired with the trace of the
one call issued. -/
def open_tty (env : FsEnv) (dev_dir : Int) (tty_num : Int) : Except Errno Int × List FsCall :=
  (env.openat dev_dir ("ttyv" ++ toString tty_num) openTtyFlags 0,
   [FsCall.openat dev_dir ("ttyv" ++ toString tty_num) openTtyFlags 0])

/-- `find_free_tty(dev_dir)` from src/vt.rs: open `"ttyv0"` as a scratch
handle (propagating its error with `?`), issue `vt_openqry` on it (propagating
with `?`), close the scratch handle (propagating with `?`), and return the
queried VT number minus one; paired with the trace of issued calls. -/
def find_free_tty (env : FsEnv) (dev_dir : Int) : Except Errno Int × List FsCall :=
  match env.openat dev_dir "ttyv0" openTtyFlags 0 with
  | Except.error e => (Except.error e, [FsCall.openat dev_dir "ttyv0" openTtyFlags 0])
  | Except.ok tty0 =>
    match env.openqry tty0 with
    | Except.error e =>
        (Except.error e,
         [FsCall.openat dev_dir "ttyv0" openTtyFlags 0, FsCall.vt_openqry tty0])
    | Except.ok vt_num =>
      match env.close tty0 with
      | Except.error e =>
          (Except.error e,
           [FsCall.openat dev_dir "ttyv0" openTtyFlags 0, FsCall.vt_openqry tty0,
            FsCall.closefd tty0])
      | Except.ok _ =>
          (Except.ok (vt_num - 1),
           [FsCall.openat dev_dir "ttyv0" openTtyFlags 0, FsCall.vt_openqry tty0,
            FsCall.closefd tty0])

/-- An environment in which every primitive succeeds (`openat` returns
descriptor 5, `vt_openqry` reports VT number 5). -/
def envAllOk : FsEnv :=
  ⟨fun _ _ _ _ => Except.ok 5, fun _ => Except.ok 5, fun _ => Except.ok ()⟩

/-- An environment in which `openat` fails with `ENOENT`. -/
def envOpenFail : FsEnv :=
  ⟨fun _ _ _ _ => Except.error Errno.ENOENT, fun _ => Except.ok 5, fun _ => Except.ok ()⟩

/-- An environment in which `openat` succeeds (descriptor 5) but the
`vt_openqry` ioctl fails with `EINVAL`. -/
def envQryFail : FsEnv :=
  ⟨fun _ _ _ _ => Except.ok 5, fun _ => Except.error Errno.EINVAL, fun _ => Except.ok ()⟩

/-- An environment in which `openat` and `vt_openqry` succeed (descriptor 5,
VT number 7) but `close` fails with `EBADF`. -/
def envCloseFail : FsEnv :=
  ⟨fun _ _ _ _ => Except.ok 5, fun _ => Except.ok 7, fun _ => Except.error Errno.EBADF⟩

theorem numCloses_append (l1 l2 : List KCall) :
    numCloses (l1 ++ l2) = numCloses l1 + numCloses l2 := by
  induction l1 with
  | nil => simp [numCloses]
  | cons h t ih => cases h <;> simp [numCloses, ih] <;> omega

theorem vtNew_shape (flt : Nat → Bool) (fd : Int) (s : KernelState) :
    numCloses (vtNew flt fd s).trace = 0
  ∧ (∃ rest, (vtNew flt fd s).trace ++ rest = (vtNew noFault fd s).trace)
  ∧ ((vtNew flt fd s).isOk = true → ∀ i, 1 ≤ i → i ≤ 9 → flt i = false) := by
  by_cases h1 : flt 1 = true
  · refine ⟨by simp [vtNew, h1, RunResult.trace, numCloses], ⟨?_, ?_⟩, ?_⟩
    · exact [KCall.kdgkbmode, KCall.kdskbmode K_RAW, KCall.tcgetattr,
        KCall.tcsetattr SetArg.TCSAFLUSH TermiosMode.raw, KCall.kdsetmode KD_GRAPHICS,
        KCall.vt_setmode acquireVtMode, KCall.vt_activate s.vtIndex,
        KCall.vt_waitactive s.vtIndex]
    · simp [vtNew, h1, noFault, RunResult.trace, cfmakeraw]
    · intro hok
      simp [vtNew, h1, RunResult.isOk] at hok
  · by_cases h2 : flt 2 = true
    · refine ⟨by simp [vtNew, h1, h2, RunResult.trace, numCloses], ⟨?_, ?_⟩, ?_⟩
      · exact [KCall.kdskbmode K_RAW, KCall.tcgetattr,
          KCall.tcsetattr SetArg.TCSAFLUSH TermiosMode.raw, KCall.kdsetmode KD_GRAPHICS,
          KCall.vt_setmode acquireVtMode, KCall.vt_activate s.vtIndex,
          KCall.vt_waitactive s.vtIndex]
      · simp [vtNew, h1, h2, noFault, RunResult.trace, cfmakeraw]
      · intro hok
        simp [vtNew, h1, h2, RunResult.isOk] at hok
    · by_cases h3 : flt 3 = true
      · refine ⟨by simp [vtNew, h1, h2, h3, RunResult.trace, numCloses], ⟨?_, ?_⟩, ?_⟩
        · exact [KCall.tcgetattr, KCall.tcsetattr SetArg.TCSAFLUSH TermiosMode.raw,
            KCall.kdsetmode KD_GRAPHICS, KCall.vt_setmode acquireVtMode,
            KCall.vt_activate s.vtIndex, KCall.vt_waitactive s.vtIndex]
        · simp [vtNew, h1, h2, h3, noFault, RunResult.trace, cfmakeraw]
        · intro hok
          simp [vtNew, h1, h2, h3, RunResult.isOk] at hok
      · by_cases h4 : flt 4 = true
        · refine ⟨by simp [vtNew, h1, h2, h3, h4, RunResult.trace, numCloses], ⟨?_, ?_⟩, ?_⟩
          · exact [KCall.tcsetattr SetArg.TCSAFLUSH TermiosMode.raw,
              KCall.kdsetmode KD_GRAPHICS, KCall.vt_setmode acquireVtMode,
              KCall.vt_activate s.vtIndex, KCall.vt_waitactive s.vtIndex]
          · simp [vtNew, h1, h2, h3, h4, noFault, RunResult.trace, cfmakeraw]
          · intro hok
            simp [vtNew, h1, h2, h3, h4, RunResult.isOk] at hok
        · by_cases h5 : flt 5 = true
          · refine ⟨by simp [vtNew, h1, h2, h3, h4, h5, RunResult.trace, numCloses],
              ⟨?_, ?_⟩, ?_⟩
            · exact [KCall.kdsetmode KD_GRAPHICS, KCall.vt_setmode acquireVtMode,
                KCall.vt_activate s.vtIndex, KCall.vt_waitactive s.vtIndex]
            · simp [vtNew, h1, h2, h3, h4, h5, noFault, RunResult.trace, cfmakeraw]
            · intro hok
              simp [vtNew, h1, h2, h3, h4, h5, RunResult.isOk] at hok
          · by_cases h6 : flt 6 = true
            · refine ⟨by simp [vtNew, h1, h2, h3, h4, h5, h6, RunResult.trace, numCloses],
                ⟨?_, ?_⟩, ?_⟩
              · exact [KCall.vt_setmode acquireVtMode, KCall.vt_activate s.vtIndex,
                  KCall.vt_waitactive s.vtIndex]
              · simp [vtNew, h1, h2, h3, h4, h5, h6, noFault, RunResult.trace, cfmakeraw]
              · intro hok
                simp [vtNew, h1, h2, h3, h4, h5, h6, RunResult.isOk] at hok
            · by_cases h7 : flt 7 = true
              · refine ⟨by simp [vtNew, h1, h2, h3, h4, h5, h6, h7, RunResult.trace, numCloses],
                  ⟨?_, ?_⟩, ?_⟩
                · exact [KCall.vt_activate s.vtIndex, KCall.vt_waitactive s.vtIndex]
                · simp [vtNew, h1, h2, h3, h4, h5, h6, h7, noFault, RunResult.trace, cfmakeraw]
                · intro hok
                  simp [vtNew, h1, h2, h3, h4, h5, h6, h7, RunResult.isOk] at hok
              · by_cases h8 : flt 8 = true
                · refine ⟨by simp [vtNew, h1, h2, h3, h4, h5, h6, h7, h8, RunResult.trace,
                      numCloses], ⟨?_, ?_⟩, ?_⟩
                  · exact [KCall.vt_waitactive s.vtIndex]
                  · simp [vtNew, h1, h2, h3, h4, h5, h6, h7, h8, noFault, RunResult.trace,
                      cfmakeraw]
                  · intro hok
                    simp [vtNew, h1, h2, h3, h4, h5, h6, h7, h8, RunResult.isOk] at hok
                · by_cases h9 : flt 9 = true
                  · refine ⟨by simp [vtNew, h1, h2, h3, h4, h5, h6, h7, h8, h9,
                        RunResult.trace, numCloses], ⟨[], ?_⟩, ?_⟩
                    · simp [vtNew, h1, h2, h3, h4, h5, h6, h7, h8, h9, noFault,
                        RunResult.trace, cfmakeraw]
                    · intro hok
                      simp [vtNew, h1, h2, h3, h4, h5, h6, h7, h8, h9, RunResult.isOk] at hok
                  · refine ⟨by simp [vtNew, h1, h2, h3, h4, h5, h6, h7, h8, h9,
                        RunResult.trace, numCloses], ⟨[], ?_⟩, ?_⟩
                    · simp [vtNew, h1, h2, h3, h4, h5, h6, h7, h8, h9, noFault,
                        RunResult.trace, cfmakeraw]
                    · intro _ i hi1 hi9
                      interval_cases i <;> simp_all [Bool.not_eq_true]

theorem vtDrop_ok_iff (flt : Nat → Bool) (v : Vt) (t : KernelState) :
    (vtDrop flt v t).isOk = true ↔ (∀ i, 1 ≤ i → i ≤ 5 → flt i = false) := by
  constructor
  · intro hok i hi1 hi5
    by_cases h1 : flt 1 = true
    · simp [vtDrop, h1, RunResult.isOk] at hok
    · by_cases h2 : flt 2 = true
      · simp [vtDrop, h1, h2, RunResult.isOk] at hok
      · by_cases h3 : flt 3 = true
        · simp [vtDrop, h1, h2, h3, RunResult.isOk] at hok
        · by_cases h4 : flt 4 = true
          · simp [vtDrop, h1, h2, h3, h4, RunResult.isOk] at hok
          · by_cases h5 : flt 5 = true
            · simp [vtDrop, h1, h2, h3, h4, h5, RunResult.isOk] at hok
            · interval_cases i <;> simp_all [Bool.not_eq_true]
  · intro hall
    have h1 := hall 1 (by norm_num) (by norm_num)
    have h2 := hall 2 (by norm_num) (by norm_num)
    have h3 := hall 3 (by norm_num) (by norm_num)
    have h4 := hall 4 (by norm_num) (by norm_num)
    have h5 := hall 5 (by norm_num) (by norm_num)
    by_cases h6 : flt 6 = true <;>
      simp [vtDrop, h1, h2, h3, h4, h5, h6, RunResult.isOk]

/-- Claim C3: Acquire (`Vt::new`), given an open device handle, performs
exactly these kernel interactions in this order: read the kernel-assigned VT
index, read the current keyboard mode, set keyboard mode to raw, read the
termios settings and set them to raw committing with a flush of buffered
input/output (`TCSAFLUSH`), set console mode to graphics, install the
`PROCESS` switch-mode descriptor, request activation of the target VT and
then block until the kernel reports it active. -/
theorem acquire_step_order (fd : Int) (s : KernelState) :
    (vtNew noFault fd s).trace =
      [KCall.vt_getindex, KCall.kdgkbmode, KCall.kdskbmode K_RAW, KCall.tcgetattr,
       KCall.tcsetattr SetArg.TCSAFLUSH TermiosMode.raw, KCall.kdsetmode KD_GRAPHICS,
       KCall.vt_setmode acquireVtMode, KCall.vt_activate s.vtIndex,
       KCall.vt_waitactive s.vtIndex] := rfl

/-- Claim C2 counterexample: the state-changing teardown steps are NOT the
strict reverse of the state-changing acquire steps (followed by the close):
teardown restores the keyboard mode first and the descriptor fourth, whereas
the strict reverse of acquire would reset the descriptor first and the
keyboard mode last. -/
theorem teardown_order_not_reverse_cex :
    ((vtDrop noFault ⟨3, 2, 2⟩ cexState).trace.filterMap writeTag)
      ≠ (((vtNew noFault 3 cexState).trace.filterMap writeTag).reverse
          ++ [StateTag.fdclose]) := by decide

/-- Claim C2 (amended): Teardown (`Drop::drop`) executes exactly these steps
in this order: restore the prior keyboard mode, then restore the text console
mode, then restore sane termios settings (read current, make sane, commit
with a flush), then reset the switch-mode descriptor to
`mode = AUTO` with all signal fields zero, then close the device handle.
This listed order is what the code does, but it is not the strict reverse of
the acquire order: the strict reverse would reset the descriptor first and
restore the keyboard mode last. -/
theorem teardown_step_order (v : Vt) (s : KernelState) :
    (vtDrop noFault v s).trace =
      [KCall.kdskbmode v.original_kb_mode, KCall.kdsetmode KD_TEXT, KCall.tcgetattr,
       KCall.tcsetattr SetArg.TCSAFLUSH TermiosMode.sane, KCall.vt_setmode teardownVtMode,
       KCall.close] := rfl

/-- Claim C1 counterexample: starting from a kernel state whose console mode
is graphics (`cexState.consMode = KD_GRAPHICS = 1`), the acquire-then-teardown
round trip completes successfully but leaves the console mode at `KD_TEXT`,
not at the value observed immediately before Acquire: the code never reads
the prior console mode and unconditionally restores `KD_TEXT`. -/
theorem roundtrip_consmode_cex :
    (sessionRun noFault noFault 3 cexState).isOk = true
  ∧ (sessionRun noFault noFault 3 cexState).state.consMode ≠ cexState.consMode := by
  decide

/-- Claim C1 (amended): for every session that completes Acquire successfully,
Teardown restores the keyboard mode to exactly the value observed immediately
before Acquire, and sets the console mode unconditionally to `KD_TEXT` — which
equals the mode in effect before Acquire exactly when that mode was text. -/
theorem roundtrip_modes (fd : Int) (s : KernelState) :
    (sessionRun noFault noFault fd s).state.kbMode = s.kbMode
  ∧ (sessionRun noFault noFault fd s).state.consMode = KD_TEXT
  ∧ (s.consMode = KD_TEXT →
      (sessionRun noFault noFault fd s).state.consMode = s.consMode) := by
  refine ⟨rfl, rfl, fun h => by rw [h]; exact rfl⟩

/-- Witness for `roundtrip_modes` at a concrete text-mode state. -/
theorem roundtrip_modes_witness :
    (sessionRun noFault noFault 3 textState).state.kbMode = textState.kbMode
  ∧ (sessionRun noFault noFault 3 textState).state.consMode = textState.consMode :=
  ⟨(roundtrip_modes 3 textState).1, (roundtrip_modes 3 textState).2.2 rfl⟩

/-- Claim C6: the switch-mode descriptor written during Acquire has
`mode = PROCESS`, `relsig = acqsig = SIGUSR1` and a non-zero
`frsig = SIGIO`, and it is the only descriptor Acquire writes; the descriptor
written during Teardown is the only one Teardown writes and has `mode = AUTO`
and all three signal fields zero. -/
theorem switch_mode_descriptor_values (fd : Int) (s t : KernelState) (v : Vt) :
    setModeArgs (vtNew noFault fd s).trace = [acquireVtMode]
  ∧ acquireVtMode.mode = VT_PROCESS
  ∧ acquireVtMode.relsig = SIGUSR1
  ∧ acquireVtMode.acqsig = SIGUSR1
  ∧ acquireVtMode.frsig = SIGIO
  ∧ acquireVtMode.frsig ≠ 0
  ∧ setModeArgs (vtDrop noFault v t).trace = [teardownVtMode]
  ∧ teardownVtMode.mode = VT_AUTO
  ∧ teardownVtMode.relsig = 0
  ∧ teardownVtMode.acqsig = 0
  ∧ teardownVtMode.frsig = 0 := by
  exact ⟨rfl, rfl, rfl, rfl, rfl, by decide, rfl, rfl, rfl, rfl, rfl⟩

/-- Claim C9: `ack_release` issues exactly one `vt_reldisp` call with the
release discriminator `VT_TRUE = 1`, `ack_acquire` issues exactly one
`vt_reldisp` call with the acquire discriminator `VT_ACKACQ = 2`, and neither
operation changes the session's in-memory `Vt` state (nor the modelled kernel
state: `vt_reldisp` mutates none of the modelled fields). -/
theorem ack_calls_spec (v : Vt) (s : KernelState) :
    ack_release v s = (v, s, [KCall.vt_reldisp VT_TRUE])
  ∧ ack_acquire v s = (v, s, [KCall.vt_reldisp VT_ACKACQ])
  ∧ VT_TRUE = 1
  ∧ VT_ACKACQ = 2 := ⟨rfl, rfl, rfl, rfl⟩

/-- Claim C4 counterexample: make the 6th issued acquire call
(`kdsetmode(KD_GRAPHICS)`, spec step 5) fail.  The session aborts, the trace
contains no close (so no teardown ran at all, not one teardown), and the
keyboard mode set raw by completed step 3 is NOT reversed: the final state
still has `kbMode = K_RAW`, differing from the pre-acquire value. -/
theorem session_partial_failure_cex :
    (sessionRun fault6 noFault 3 cexState).isOk = false
  ∧ numCloses (sessionRun fault6 noFault 3 cexState).trace = 0
  ∧ (sessionRun fault6 noFault 3 cexState).state.kbMode = K_RAW
  ∧ (sessionRun fault6 noFault 3 cexState).state.kbMode ≠ cexState.kbMode := by
  decide

/-- Claim C4 (amended): teardown runs exactly once per session whose Acquire
completed — the trace of a full session contains exactly one close when
Acquire succeeded and none when it failed — and when Acquire fails partway the
process-abort path is taken directly: the session outcome is the aborted
acquire outcome itself, with no teardown call and no reversal of the state
established by the completed steps. -/
theorem teardown_exactly_once (flt : Nat → Bool) (fd : Int) (s : KernelState) :
    numCloses (sessionRun flt noFault fd s).trace
        = (if (vtNew flt fd s).isOk = true then 1 else 0)
  ∧ ((vtNew flt fd s).isOk = false →
      (sessionRun flt noFault fd s).isOk = false
      ∧ (sessionRun flt noFault fd s).trace = (vtNew flt fd s).trace
      ∧ (sessionRun flt noFault fd s).state = (vtNew flt fd s).state) := by
  have hshape := (vtNew_shape flt fd s).1
  cases h : vtNew flt fd s with
  | aborted m s2 tr =>
    rw [h] at hshape
    constructor
    · simp only [sessionRun, h, RunResult.isOk, RunResult.trace] at hshape ⊢
      simp [hshape]
    · intro _
      simp [sessionRun, h, RunResult.isOk, RunResult.trace, RunResult.state]
  | ok v s2 tr =>
    rw [h] at hshape
    constructor
    · simp only [sessionRun, h, RunResult.isOk, RunResult.trace] at hshape ⊢
      simp [vtDrop, noFault, RunResult.trace, numCloses_append, hshape, numCloses]
    · intro hfalse
      simp [RunResult.isOk] at hfalse

/-- Witness for `teardown_exactly_once`: with the 6th acquire call failing on
the concrete state `cexState`, the session trace contains no close and the
session outcome is the aborted acquire outcome. -/
theorem teardown_exactly_once_witness :
    numCloses (sessionRun fault6 noFault 3 cexState).trace = 0
  ∧ (sessionRun fault6 noFault 3 cexState).isOk = false :=
  ⟨by rw [(teardown_exactly_once fault6 3 cexState).1]; decide,
   ((teardown_exactly_once fault6 3 cexState).2 (by decide)).1⟩

/-- Claim C5 counterexample: the last teardown step is exempt from the
every-failure-is-fatal rule: when the 6th teardown call (`unistd::close`)
fails, `Drop::drop` still completes normally, because the source discards the
result of `close` (`let _ = ...`) instead of unwrapping it. -/
theorem close_failure_not_fatal_cex :
    fault6 6 = true ∧ (vtDrop fault6 ⟨3, 2, 2⟩ cexState).isOk = true := by decide

/-- Claim C5 (amended): every failing kernel call inside Acquire is fatal, and
every failing kernel call inside Teardown except the final `close` is fatal
(the `close` result is discarded, so Teardown completes even when it fails);
Acquire attempts no partial rollback: its trace on any fault oracle is a
prefix of the fault-free acquire trace, so no restoring call is ever issued
by Acquire after a failure. -/
theorem failures_fatal (flt : Nat → Bool) (fd : Int) (s t : KernelState) (v : Vt) :
    ((∃ i, 1 ≤ i ∧ i ≤ 9 ∧ flt i = true) → (vtNew flt fd s).isOk = false)
  ∧ ((∃ i, 1 ≤ i ∧ i ≤ 5 ∧ flt i = true) → (vtDrop flt v t).isOk = false)
  ∧ ((∀ i, 1 ≤ i → i ≤ 5 → flt i = false) → (vtDrop flt v t).isOk = true)
  ∧ (∃ rest, (vtNew flt fd s).trace ++ rest = (vtNew noFault fd s).trace) := by
  refine ⟨?_, ?_, ?_, (vtNew_shape flt fd s).2.1⟩
  · rintro ⟨i, hi1, hi9, hfi⟩
    cases hok : (vtNew flt fd s).isOk
    · rfl
    · exact absurd ((vtNew_shape flt fd s).2.2 hok i hi1 hi9) (by simp [hfi])
  · rintro ⟨i, hi1, hi5, hfi⟩
    cases hok : (vtDrop flt v t).isOk
    · rfl
    · exact absurd ((vtDrop_ok_iff flt v t).1 hok i hi1 hi5) (by simp [hfi])
  · intro hall
    exact (vtDrop_ok_iff flt v t).2 hall

/-- Witness for `failures_fatal`: a failing 6th acquire call aborts `Vt::new`
on the concrete state `cexState`, and a fault-free teardown completes. -/
theorem failures_fatal_witness :
    (vtNew fault6 3 cexState).isOk = false
  ∧ (vtDrop noFault ⟨3, 2, 2⟩ cexState).isOk = true :=
  ⟨(failures_fatal fault6 3 cexState cexState ⟨3, 2, 2⟩).1
      ⟨6, by norm_num, by norm_num, rfl⟩,
   (failures_fatal noFault 3 cexState cexState ⟨3, 2, 2⟩).2.2.1
      (fun _ _ _ => rfl)⟩

/-- Claim C7: `find_free_tty(dev_dir)` opens the device node `"ttyv0"` (VT
index 0) as a scratch handle with the same flags `open_tty` uses, issues the
`vt_openqry` open-query ioctl on it, closes the scratch handle, and returns
the queried number minus one; if the scratch open fails, it returns that open
error having issued only the failed open. -/
theorem find_free_tty_spec (env : FsEnv) (dev_dir : Int) :
    (∀ fd n, env.openat dev_dir "ttyv0" openTtyFlags 0 = Except.ok fd →
      env.openqry fd = Except.ok n → env.close fd = Except.ok () →
      find_free_tty env dev_dir
        = (Except.ok (n - 1),
           [FsCall.openat dev_dir "ttyv0" openTtyFlags 0, FsCall.vt_openqry fd,
            FsCall.closefd fd]))
  ∧ (∀ e, env.openat dev_dir "ttyv0" openTtyFlags 0 = Except.error e →
      find_free_tty env dev_dir
        = (Except.error e, [FsCall.openat dev_dir "ttyv0" openTtyFlags 0])) := by
  constructor
  · intro fd n hopen hqry hclose
    simp [find_free_tty, hopen, hqry, hclose]
  · intro e hopen
    simp [find_free_tty, hopen]

/-- Witness for `find_free_tty_spec`: in `envAllOk` the query reports VT 5 and
the function returns 4 after open, query, close; in `envOpenFail` the scratch
open error is returned. -/
theorem find_free_tty_spec_witness :
    find_free_tty envAllOk 9
      = (Except.ok 4,
         [FsCall.openat 9 "ttyv0" openTtyFlags 0, FsCall.vt_openqry 5, FsCall.closefd 5])
  ∧ find_free_tty envOpenFail 9
      = (Except.error Errno.ENOENT, [FsCall.openat 9 "ttyv0" openTtyFlags 0]) :=
  ⟨(find_free_tty_spec envAllOk 9).1 5 5 rfl rfl rfl,
   (find_free_tty_spec envOpenFail 9).2 Errno.ENOENT rfl⟩

/-- Claim C8: `open_tty(dev_dir, tty_num)` issues exactly one `openat` of the
node named `ttyv<N>` relative to the caller-supplied directory descriptor,
with a flag word containing `O_NOCTTY` (do not adopt the device as the
controlling terminal) and `O_CLOEXEC` (close on exec), and returns whatever
error the open reports (such as a missing node or denied permission) instead
of a handle. -/
theorem open_tty_spec (env : FsEnv) (dev_dir tty_num : Int) :
    (open_tty env dev_dir tty_num).2
        = [FsCall.openat dev_dir ("ttyv" ++ toString tty_num) openTtyFlags 0]
  ∧ openTtyFlags &&& O_NOCTTY = O_NOCTTY
  ∧ openTtyFlags &&& O_CLOEXEC = O_CLOEXEC
  ∧ (∀ e, env.openat dev_dir ("ttyv" ++ toString tty_num) openTtyFlags 0 = Except.error e →
      (open_tty env dev_dir tty_num).1 = Except.error e) := by
  exact ⟨rfl, by decide, by decide, fun _ h => h⟩

/-- Witness for `open_tty_spec`: opening VT 7 under `envOpenFail` targets the
node `"ttyv7"` and propagates the `ENOENT` error. -/
theorem open_tty_spec_witness :
    (open_tty envOpenFail 9 7).2 = [FsCall.openat 9 "ttyv7" openTtyFlags 0]
  ∧ (open_tty envOpenFail 9 7).1 = Except.error Errno.ENOENT :=
  ⟨(open_tty_spec envOpenFail 9 7).1,
   (open_tty_spec envOpenFail 9 7).2.2.2 Errno.ENOENT rfl⟩

/-- Claim C10: in `find_free_tty`, when the `vt_openqry` call fails after the
scratch open succeeded, the function returns the query error without issuing
any close (the scratch descriptor leaks); and when the query succeeds but
closing the scratch handle fails, the function returns the close error instead
of the free VT number it already obtained. -/
theorem find_free_tty_error_paths (env : FsEnv) (dev_dir : Int) :
    (∀ fd e, env.openat dev_dir "ttyv0" openTtyFlags 0 = Except.ok fd →
      env.openqry fd = Except.error e →
      find_free_tty env dev_dir
        = (Except.error e,
           [FsCall.openat dev_dir "ttyv0" openTtyFlags 0, FsCall.vt_openqry fd]))
  ∧ (∀ fd n e, env.openat dev_dir "ttyv0" openTtyFlags 0 = Except.ok fd →
      env.openqry fd = Except.ok n → env.close fd = Except.error e →
      find_free_tty env dev_dir
        = (Except.error e,
           [FsCall.openat dev_dir "ttyv0" openTtyFlags 0, FsCall.vt_openqry fd,
            FsCall.closefd fd])) := by
  constructor
  · intro fd e hopen hqry
    simp [find_free_tty, hopen, hqry]
  · intro fd n e hopen hqry hclose
    simp [find_free_tty, hopen, hqry, hclose]

/-- Witness for `find_free_tty_error_paths`: under `envQryFail` the query error
is returned with no close in the trace; under `envCloseFail` the close error
is returned instead of the obtained number 6. -/
theorem find_free_tty_error_paths_witness :
    find_free_tty envQryFail 9
      = (Except.error Errno.EINVAL,
         [FsCall.openat 9 "ttyv0" openTtyFlags 0, FsCall.vt_openqry 5])
  ∧ find_free_tty envCloseFail 9
      = (Except.error Errno.EBADF,
         [FsCall.openat 9 "ttyv0" openTtyFlags 0, FsCall.vt_openqry 5, FsCall.closefd 5]) :=
  ⟨(find_free_tty_error_paths envQryFail 9).1 5 Errno.EINVAL rfl rfl,
   (find_free_tty_error_paths envCloseFail 9).2 5 7 Errno.EBADF rfl rfl rfl⟩
